import Mathlib

/-!
Verification development for the Aeron core snapshot: shallow embeddings of
the driver context configuration parsing, the distinct error log, the
many-to-one ring buffer write path, and the client conductor state machine,
together with theorems settling the specification's claims about them.

C strings are embedded as `List Char` (NUL-free; the end of the list plays
the role of the terminating NUL).  Machine-word values are embedded as `Nat`
or `Int`; overflow is made explicit where it matters.  Clocks are passed as
explicit timestamp arguments.
-/

namespace Aeron

/-! ## C library model: strncmp / strtoull -/

/-- C `strncmp(a, b, n) == 0` over NUL-free character lists: the first `n`
characters agree, where running off the end of a list plays the role of the
terminating NUL (so lists of different lengths below `n` compare unequal). -/
def cStrncmpEq : List Char → List Char → Nat → Bool
  | _, _, 0 => true
  | [], [], _ + 1 => true
  | [], _ :: _, _ + 1 => false
  | _ :: _, [], _ + 1 => false
  | a :: as, b :: bs, n + 1 => a == b && cStrncmpEq as bs n

/-- `leadsWith s p`: the list `p` is an initial run of `s`. -/
def leadsWith : List Char → List Char → Bool
  | _, [] => true
  | [], _ :: _ => false
  | a :: as, b :: bs => a == b && leadsWith as bs

/-- Digit value of a character for bases up to 16, as `strtoull` accepts. -/
def digitVal (base : Nat) (c : Char) : Option Nat :=
  let v : Option Nat :=
    if '0' ≤ c ∧ c ≤ '9' then some (c.toNat - '0'.toNat)
    else if 'a' ≤ c ∧ c ≤ 'f' then some (c.toNat - 'a'.toNat + 10)
    else if 'A' ≤ c ∧ c ≤ 'F' then some (c.toNat - 'A'.toNat + 10)
    else none
  match v with
  | some d => if d < base then some d else none
  | none => none

/-- Accumulate the leading run of base-`base` digits. -/
def digitsVal (base : Nat) : List Char → Nat → Nat
  | c :: rest, acc =>
    match digitVal base c with
    | some d => digitsVal base rest (acc * base + d)
    | none => acc
  | [], acc => acc

/-- Parse a non-empty leading digit run in the given base; `none` when the
first character is not a digit (no conversion performed). -/
def parseUnsigned (base : Nat) (l : List Char) : Option Nat :=
  match l with
  | c :: _ => if (digitVal base c).isSome then some (digitsVal base l 0) else none
  | [] => none

/-- C whitespace per `isspace` in the default locale. -/
def isCSpace (c : Char) : Bool :=
  c == ' ' || c == '\t' || c == '\n' || c == '\x0d' || c == '\x0b' || c == '\x0c'

/-- `ULLONG_MAX`. -/
def ullongMax : Nat := 2 ^ 64 - 1

/-- Final value of `strtoull`: saturate overflow to `ULLONG_MAX`, and apply
unsigned negation for a leading minus sign. -/
def strtoullWrap (neg : Bool) (v : Nat) : Nat :=
  if ullongMax < v then ullongMax
  else if neg then (2 ^ 64 - v) % 2 ^ 64
  else v

/-- C `strtoull(s, NULL, 0)` (automatic base detection) over a NUL-free
character list.  `none` models "no conversion performed" (the value-0 /
`EINVAL` outcome the caller in `aeron_driver_context.c` tests for); `some v`
is the converted `uint64` value, saturated to `ULLONG_MAX` on overflow. -/
def strtoullChars (s : List Char) : Option Nat :=
  let s1 := s.dropWhile isCSpace
  let signed : Bool × List Char :=
    match s1 with
    | c :: rest => if c == '-' then (true, rest) else if c == '+' then (false, rest) else (false, s1)
    | [] => (false, s1)
  let neg := signed.1
  match signed.2 with
  | '0' :: rest1 =>
    (match rest1 with
     | c :: rest2 =>
       if c == 'x' || c == 'X' then
         match parseUnsigned 16 rest2 with
         | some v => some (strtoullWrap neg v)
         | none => some (strtoullWrap neg 0)
       else
         some (strtoullWrap neg (digitsVal 8 rest1 0))
     | [] => some (strtoullWrap neg 0))
  | other => (parseUnsigned 10 other).map (strtoullWrap neg)

/-! ## Driver context (`aeron_driver_context.c` / `.h`) -/

/-- The slice of `aeron_driver_context_t` that
`aeron_ipc_publication_term_window_length` reads. -/
structure aeron_driver_context_t where
  ipc_publication_window_length : Nat
deriving DecidableEq

/-- `aeron_ipc_publication_term_window_length` from
`aeron_driver_context.h`: starts from `term_length`; when the configured
`ipc_publication_window_length` is `0` it replaces the result with the
minimum of `term_length` and the configured value (which is then `0`);
a non-zero configured value leaves `term_length` untouched. -/
def aeron_ipc_publication_term_window_length
    (context : aeron_driver_context_t) (term_length : Nat) : Nat :=
  let publication_term_window_length := term_length
  if 0 = context.ipc_publication_window_length then
    if publication_term_window_length < context.ipc_publication_window_length then
      publication_term_window_length
    else
      context.ipc_publication_window_length
  else
    publication_term_window_length

/-- The string literal `"1"` from `aeron_config_parse_bool`. -/
def oneChars : List Char := [ '1' ]

/-- The string literal `"on"` from `aeron_config_parse_bool`. -/
def onChars : List Char := [ 'o', 'n' ]

/-- The string literal `"true"` from `aeron_config_parse_bool`. -/
def trueChars : List Char := [ 't', 'r', 'u', 'e' ]

/-- The string literal `"0"` from `aeron_config_parse_bool`. -/
def zeroChars : List Char := [ '0' ]

/-- The string literal `"off"` from `aeron_config_parse_bool`. -/
def offChars : List Char := [ 'o', 'f', 'f' ]

/-- The string literal `"false"` from `aeron_config_parse_bool`. -/
def falseChars : List Char := [ 'f', 'a', 'l', 's', 'e' ]

/-- `aeron_config_parse_bool` from `aeron_driver_context.c`; `none` models a
NULL (unset) environment value.  Each comparison is `strncmp` with the length
of the literal, exactly as in the source. -/
def aeron_config_parse_bool (str : Option (List Char)) (dflt : Bool) : Bool :=
  match str with
  | some s =>
    if cStrncmpEq s oneChars 1 || cStrncmpEq s onChars 2 || cStrncmpEq s trueChars 4 then
      true
    else if cStrncmpEq s zeroChars 1 || cStrncmpEq s offChars 3 || cStrncmpEq s falseChars 5 then
      false
    else
      dflt
  | none => dflt

/-- `aeron_config_parse_uint64` from `aeron_driver_context.c`; `none` models
a NULL (unset) environment value.  The binders `dflt`, `mn`, `mx` stand for
the source's `def`, `min`, `max` (reserved words in Lean). -/
def aeron_config_parse_uint64 (str : Option (List Char)) (dflt mn mx : Nat) : Nat :=
  match str with
  | some s =>
    let value : Nat :=
      match strtoullChars s with
      | none => dflt
      | some v => v
    let result1 := if mx < value then mx else value
    if result1 < mn then mn else result1
  | none => dflt

/-! ## Distinct error log (`concurrent/aeron_distinct_error_log.c`) -/

/-- `AERON_MAX_PATH` from `aeron_driver_context.h`. -/
def AERON_MAX_PATH : Nat := 256

/-- Modelled from the spec: `aeron_distinct_error_log.h` is not under
`src/`.  The error-log record header of §4.B / §6 holds an `int32` length,
an `int32` observation count and two `int64` timestamps: 24 bytes. -/
def AERON_ERROR_LOG_HEADER_LENGTH : Nat := 24

/-- Modelled from the spec: `aeron_distinct_error_log.h` is not under
`src/`.  Error-log records are "aligned to a constant that matches the ring
alignment", a multiple of 8; we take 8. -/
def AERON_ERROR_LOG_RECORD_ALIGNMENT : Nat := 8

/-- `AERON_ALIGN(value, alignment)`: round `value` up to a multiple of
`alignment`. -/
def alignUp (value alignment : Nat) : Nat :=
  ((value + alignment - 1) / alignment) * alignment

/-- The view of an error-log entry at some buffer offset: the header fields
of `aeron_error_log_entry_t` plus the encoded error characters that follow
the header.  A freshly zeroed buffer region reads as `zeroEntry`. -/
structure EntryView where
  length : Nat
  observation_count : Nat
  first_observation_timestamp : Int
  last_observation_timestamp : Int
  encoded : List Char
deriving DecidableEq

/-- The all-zero view of unwritten buffer space. -/
def zeroEntry : EntryView :=
  { length := 0, observation_count := 0, first_observation_timestamp := 0,
    last_observation_timestamp := 0, encoded := [] }

/-- `aeron_distinct_observation_t`: dedup key (error code and description)
plus the buffer offset of the record. -/
structure Observation where
  error_code : Int
  description : List Char
  offset : Nat
deriving DecidableEq

/-- `aeron_distinct_error_log_t`: the shared buffer (as a view function from
byte offsets, zero where unwritten), its capacity, the append cursor, and
the versioned observations array (new entries at index 0).  The clock is
passed explicitly to the operations. -/
structure DistinctErrorLog where
  buffer_capacity : Nat
  next_offset : Nat
  buf : Nat → EntryView
  observations : List Observation

/-- `aeron_distinct_error_log_init` over a zeroed buffer of the given
capacity. -/
def aeron_distinct_error_log_init (buffer_size : Nat) : DistinctErrorLog :=
  { buffer_capacity := buffer_size, next_offset := 0,
    buf := fun _ => zeroEntry, observations := [] }

/-- `aeron_distinct_error_log_find_observation`: first observation whose
error code matches and whose description agrees under
`strncmp(..., AERON_MAX_PATH)`. -/
def aeron_distinct_error_log_find_observation
    (observations : List Observation) (error_code : Int) (description : List Char) :
    Option Observation :=
  observations.find? (fun o =>
    o.error_code == error_code && cStrncmpEq o.description description AERON_MAX_PATH)

/-- The `": "` separator in the `snprintf` format `"%d: %s %s"`. -/
def colonSpace : List Char := [ ':', ' ' ]

/-- The `" "` separator in the `snprintf` format `"%d: %s %s"`. -/
def spaceChars : List Char := [ ' ' ]

/-- The `snprintf(encoded_error, sizeof(encoded_error) - 1, "%d: %s %s", ...)`
encoding: at most 254 characters are written. -/
def encodeError (error_code : Int) (description message : List Char) : List Char :=
  ((toString error_code).data ++ colonSpace ++ description ++ spaceChars ++ message).take 254

/-- `aeron_distinct_error_log_new_observation`: re-check for the key against
the first `existing_num_observations` entries; when absent, append a record
at `next_offset` (failing when it does not fit), advance `next_offset` to
the aligned end, and push a new observation at index 0.  The entry is
created with `observation_count = 0`; `last_observation_timestamp` is left
as the bytes found there (zero in a fresh buffer) — the caller sets it. -/
def aeron_distinct_error_log_new_observation
    (log : DistinctErrorLog) (existing_num_observations : Nat) (timestamp : Int)
    (error_code : Int) (description message : List Char) :
    Option (Observation × DistinctErrorLog) :=
  match aeron_distinct_error_log_find_observation
      (log.observations.take existing_num_observations) error_code description with
  | some observation => some (observation, log)
  | none =>
    let encoded := encodeError error_code description message
    let length := AERON_ERROR_LOG_HEADER_LENGTH + encoded.length
    let offset := log.next_offset
    if log.buffer_capacity < offset + length then none
    else
      let entry : EntryView :=
        { length := length, observation_count := 0,
          first_observation_timestamp := timestamp,
          last_observation_timestamp := (log.buf offset).last_observation_timestamp,
          encoded := encoded }
      let newObservation : Observation :=
        { error_code := error_code, description := description.take AERON_MAX_PATH,
          offset := offset }
      some (newObservation,
        { log with
          next_offset := alignUp (offset + length) AERON_ERROR_LOG_RECORD_ALIGNMENT,
          buf := fun o => if o = offset then entry else log.buf o,
          observations := newObservation :: log.observations })

/-- The tail of `aeron_distinct_error_log_record`: get-and-add the entry's
`observation_count` and publish the timestamp as its
`last_observation_timestamp`. -/
def bumpEntry (log : DistinctErrorLog) (offset : Nat) (timestamp : Int) :
    DistinctErrorLog :=
  { log with
    buf := fun o =>
      if o = offset then
        { log.buf offset with
          observation_count := (log.buf offset).observation_count + 1,
          last_observation_timestamp := timestamp }
      else log.buf o }

/-- `aeron_distinct_error_log_record` with the clock reading passed in as
`timestamp`.  `none` models the `-1` return (no room for a new record). -/
def aeron_distinct_error_log_record
    (log : DistinctErrorLog) (timestamp : Int)
    (error_code : Int) (description message : List Char) :
    Option DistinctErrorLog :=
  let num_observations := log.observations.length
  match aeron_distinct_error_log_find_observation log.observations error_code description with
  | some observation => some (bumpEntry log observation.offset timestamp)
  | none =>
    match aeron_distinct_error_log_new_observation
        log num_observations timestamp error_code description message with
    | none => none
    | some (observation, log1) => some (bumpEntry log1 observation.offset timestamp)

/-- The reader loop of `aeron_error_log_read`, with explicit fuel (each
iteration advances the offset by at least the record alignment, so fuel
`buffer_size` always suffices).  Returns the `entries` counter and the
records delivered to the sink, oldest first. -/
def readLoop (buf : Nat → EntryView) (buffer_size : Nat) (since_timestamp : Int) :
    Nat → Nat → Nat × List (Nat × EntryView)
  | 0, _ => (0, [])
  | fuel + 1, offset =>
    if offset < buffer_size then
      let entry := buf offset
      if entry.length = 0 then (0, [])
      else
        let rest := readLoop buf buffer_size since_timestamp fuel
          (offset + alignUp entry.length AERON_ERROR_LOG_RECORD_ALIGNMENT)
        if since_timestamp ≤ entry.last_observation_timestamp then
          (rest.1 + 1, (offset, entry) :: rest.2)
        else rest
    else (0, [])

/-- `aeron_error_log_read`: iterate from offset 0, halting at the first
zero-length entry or the end of the buffer; deliver each record whose
`last_observation_timestamp ≥ since_timestamp` and return the `entries`
counter together with the delivered records. -/
def aeron_error_log_read (buf : Nat → EntryView) (buffer_size : Nat)
    (since_timestamp : Int) : Nat × List (Nat × EntryView) :=
  readLoop buf buffer_size since_timestamp buffer_size 0

/-- The records the reader loop of `aeron_error_log_read` iterates over:
every entry from offset 0 up to the first zero-length entry or the end of
the buffer, regardless of the timestamp filter. -/
def iterLoop (buf : Nat → EntryView) (buffer_size : Nat) :
    Nat → Nat → List (Nat × EntryView)
  | 0, _ => []
  | fuel + 1, offset =>
    if offset < buffer_size then
      let entry := buf offset
      if entry.length = 0 then []
      else
        (offset, entry) ::
          iterLoop buf buffer_size fuel
            (offset + alignUp entry.length AERON_ERROR_LOG_RECORD_ALIGNMENT)
    else []

/-- All records iterated by a read pass over the buffer. -/
def iterRecords (buf : Nat → EntryView) (buffer_size : Nat) :
    List (Nat × EntryView) :=
  iterLoop buf buffer_size buffer_size 0

/-! ## Many-to-one ring buffer write path -/

/-- Modelled from the spec: the `ManyToOneRingBuffer` implementation
(`concurrent/ringbuffer/ManyToOneRingBuffer.h`) is not under `src/` (only
its tests are); §4.A gives the record header of three `int32` fields padded
to the record alignment. -/
def rbRecordHeaderLength : Nat := 16

/-- Modelled from the spec: record alignment is "a compile-time constant (a
multiple of 8)"; we take 8. -/
def rbRecordAlignment : Nat := 8

/-- Modelled from the spec: the reserved message type of padding records
("negative values reserved"). -/
def rbPaddingMsgTypeId : Int := -1

/-- Modelled from the spec: the ring-buffer state §4.A's `write` touches —
power-of-two `capacity`, the 64-bit producer `tail` and consumer `head`
counters, and the records claimed so far (type id and aligned length, in
claim order, padding records included). -/
structure ManyToOneRingBuffer where
  capacity : Nat
  head : Nat
  tail : Nat
  records : List (Int × Nat)
deriving DecidableEq

/-- The failure condition `write` can raise. -/
inductive RingBufferError where
  | invalidArgument
deriving DecidableEq

/-- Modelled from the spec: `write(msg_type_id, src, src_index, length)` per
§4.A.  Reject with `InvalidArgument` when `length > capacity / 8` or
`msg_type_id ≤ 0`; compute `required = align(length + header, alignment)`;
return `false` without mutating `tail` when
`tail - head + required > capacity`; otherwise claim the space, writing a
padding record first when the record would wrap the end of the data region
and placing the message at offset 0. -/
def ManyToOneRingBuffer.write (rb : ManyToOneRingBuffer) (msgTypeId : Int)
    (length : Nat) : Except RingBufferError (Bool × ManyToOneRingBuffer) :=
  if rb.capacity / 8 < length ∨ msgTypeId ≤ 0 then
    .error .invalidArgument
  else
    let required := alignUp (length + rbRecordHeaderLength) rbRecordAlignment
    if rb.capacity < rb.tail - rb.head + required then
      .ok (false, rb)
    else
      let tailIndex := rb.tail % rb.capacity
      if rb.capacity < tailIndex + required then
        let padding := rb.capacity - tailIndex
        .ok (true,
          { rb with
            tail := rb.tail + padding + required,
            records := rb.records ++ [(rbPaddingMsgTypeId, padding), (msgTypeId, required)] })
      else
        .ok (true,
          { rb with
            tail := rb.tail + required,
            records := rb.records ++ [(msgTypeId, required)] })

/-! ## Client conductor (`ClientConductor.cpp`) -/

/-- `RegistrationStatus` of a conductor record. -/
inductive RegistrationStatus where
  | awaitingMediaDriver
  | registeredMediaDriver
  | erroredMediaDriver
deriving DecidableEq

/-- `PublicationStateDefn` (also standing in for the identically shaped
`ExclusivePublicationStateDefn`).  `m_publicationAlive` models whether
`m_publication.lock()` yields a live handle; `m_logFileName` stands for the
mapped `m_buffers`. -/
structure PublicationStateDefn where
  m_channel : String
  m_registrationId : Int
  m_streamId : Int
  m_timeOfRegistration : Int
  m_status : RegistrationStatus
  m_errorCode : Int
  m_errorMessage : String
  m_publicationAlive : Bool
  m_sessionId : Int
  m_positionLimitCounterId : Int
  m_originalRegistrationId : Int
  m_logFileName : String
deriving DecidableEq

/-- Modelled from the spec: the `PublicationStateDefn` constructor lives in
`ClientConductor.h`, which is not under `src/`; a record inserted by an
add-call starts in state `AwaitingDriver` (§4.D) with its driver-filled
fields still unset. -/
def newPublicationStateDefn (channel : String) (registrationId streamId now : Int) :
    PublicationStateDefn :=
  { m_channel := channel, m_registrationId := registrationId, m_streamId := streamId,
    m_timeOfRegistration := now, m_status := .awaitingMediaDriver,
    m_errorCode := 0, m_errorMessage := "", m_publicationAlive := false,
    m_sessionId := -1, m_positionLimitCounterId := -1,
    m_originalRegistrationId := -1, m_logFileName := "" }

/-- `SubscriptionStateDefn`.  `m_subscriptionCacheSet` models whether the
strong `m_subscriptionCache` slot is occupied and `m_subscriptionAlive`
whether `m_subscription.lock()` yields a live handle. -/
structure SubscriptionStateDefn where
  m_channel : String
  m_registrationId : Int
  m_streamId : Int
  m_timeOfRegistration : Int
  m_status : RegistrationStatus
  m_errorCode : Int
  m_errorMessage : String
  m_subscriptionCacheSet : Bool
  m_subscriptionAlive : Bool
deriving DecidableEq

/-- A command sent to the media driver through the to-driver ring. -/
inductive DriverCommand where
  | addPublication (channel : String) (streamId : Int)
  | addExclusivePublication (channel : String) (streamId : Int)
  | addSubscription (channel : String) (streamId : Int)
  | removePublication (registrationId : Int)
  | removeSubscription (registrationId : Int)
deriving DecidableEq

/-- Modelled from the spec: `DriverProxy` is not under `src/`; an add-call
"allocates a fresh id" and "sends an `AddPublication` command" (§4.D), so
the proxy is a fresh-correlation-id counter plus the sequence of commands
sent. -/
structure DriverProxy where
  m_nextCorrelationId : Int
  m_commands : List DriverCommand
deriving DecidableEq

/-- `DriverProxy::addPublication`: allocate the next correlation id and send
the command. -/
def DriverProxy.addPublication (proxy : DriverProxy) (channel : String)
    (streamId : Int) : Int × DriverProxy :=
  (proxy.m_nextCorrelationId,
   { m_nextCorrelationId := proxy.m_nextCorrelationId + 1,
     m_commands := proxy.m_commands ++ [DriverCommand.addPublication channel streamId] })

/-- A user callback fired by the conductor. -/
inductive ConductorEvent where
  | onNewSubscription (channel : String) (streamId : Int) (correlationId : Int)
deriving DecidableEq

/-- The `ClientConductor` state the embedded operations touch: the three
registration tables, the two linger lists (placement time paired with an
opaque resource token), the driver proxy and the timeouts.
`m_driverActive` models the driver-liveness check of
`verifyDriverIsActive`. -/
structure ClientConductor where
  m_publications : List PublicationStateDefn
  m_exclusivePublications : List PublicationStateDefn
  m_subscriptions : List SubscriptionStateDefn
  m_lingeringLogBuffers : List (Int × Nat)
  m_lingeringImageArrays : List (Int × Nat)
  m_driverProxy : DriverProxy
  m_driverTimeoutMs : Int
  m_resourceLingerTimeoutMs : Int
  m_driverActive : Bool
deriving DecidableEq

/-- Replace the first element satisfying `p` (the record `std::find_if`
locates) by its image under `f`; the rest of the list is untouched. -/
def updateFirstIf (p : α → Bool) (f : α → α) : List α → List α
  | [] => []
  | x :: xs => if p x then f x :: xs else x :: updateFirstIf p f xs

/-- `ClientConductor::addPublication` with the `m_epochClock()` reading
passed as `now`.  `none` models the `DriverTimeoutException` thrown by
`verifyDriverIsActive` when the driver is not active; otherwise the
registration id is returned along with the updated conductor. -/
def ClientConductor.addPublication (c : ClientConductor) (now : Int)
    (channel : String) (streamId : Int) : Option (Int × ClientConductor) :=
  if c.m_driverActive then
    match c.m_publications.find? (fun entry =>
        streamId == entry.m_streamId && channel == entry.m_channel) with
    | none =>
      let sent := c.m_driverProxy.addPublication channel streamId
      some (sent.1,
        { c with
          m_publications :=
            c.m_publications ++ [newPublicationStateDefn channel sent.1 streamId now],
          m_driverProxy := sent.2 })
    | some entry => some (entry.m_registrationId, c)
  else none

/-- The outcome of `ClientConductor::findPublication`: an empty pointer, a
`Publication` handle carrying the record's identifying fields, or one of the
two exceptions the call can throw. -/
inductive FindPublicationResult where
  | nothing
  | handle (channel : String) (registrationId originalRegistrationId : Int)
      (streamId sessionId : Int)
  | driverTimeout
  | registrationError (errorCode : Int) (errorMessage : String)
deriving DecidableEq

/-- The `Publication` handle `findPublication` returns for a record (live or
freshly constructed). -/
def publicationHandleOf (state : PublicationStateDefn) : FindPublicationResult :=
  .handle state.m_channel state.m_registrationId state.m_originalRegistrationId
    state.m_streamId state.m_sessionId

/-- `ClientConductor::findPublication` with the `m_epochClock()` reading
passed as `now`.  A missing record yields `nothing`; a live weak handle is
returned as-is; otherwise the record's status decides: `AwaitingDriver`
yields `nothing` until `now > registered_at + driver_timeout` (then
`DriverTimeout`), `Registered` constructs a fresh handle and stores a new
weak reference, `Errored` throws `Registration{code, message}` — leaving
the record in place. -/
def ClientConductor.findPublication (c : ClientConductor) (now : Int)
    (registrationId : Int) : FindPublicationResult × ClientConductor :=
  match c.m_publications.find? (fun entry => registrationId == entry.m_registrationId) with
  | none => (.nothing, c)
  | some state =>
    if state.m_publicationAlive then (publicationHandleOf state, c)
    else
      match state.m_status with
      | .awaitingMediaDriver =>
        if state.m_timeOfRegistration + c.m_driverTimeoutMs < now then
          (.driverTimeout, c)
        else (.nothing, c)
      | .registeredMediaDriver =>
        (publicationHandleOf state,
          { c with
            m_publications :=
              updateFirstIf (fun entry => registrationId == entry.m_registrationId)
                (fun entry => { entry with m_publicationAlive := true })
                c.m_publications })
      | .erroredMediaDriver =>
        (.registrationError state.m_errorCode state.m_errorMessage, c)

/-- `ClientConductor::onErrorResponse`: scan subscriptions, then
publications, then exclusive publications for the offending correlation id;
mark the first match `Errored` and store the diagnostics. -/
def ClientConductor.onErrorResponse (c : ClientConductor)
    (offendingCommandCorrelationId : Int) (errorCode : Int) (errorMessage : String) :
    ClientConductor :=
  if (c.m_subscriptions.find? (fun entry =>
      offendingCommandCorrelationId == entry.m_registrationId)).isSome then
    { c with
      m_subscriptions :=
        updateFirstIf (fun entry => offendingCommandCorrelationId == entry.m_registrationId)
          (fun entry =>
            { entry with
              m_status := .erroredMediaDriver
              m_errorCode := errorCode
              m_errorMessage := errorMessage })
          c.m_subscriptions }
  else if (c.m_publications.find? (fun entry =>
      offendingCommandCorrelationId == entry.m_registrationId)).isSome then
    { c with
      m_publications :=
        updateFirstIf (fun entry => offendingCommandCorrelationId == entry.m_registrationId)
          (fun entry =>
            { entry with
              m_status := .erroredMediaDriver
              m_errorCode := errorCode
              m_errorMessage := errorMessage })
          c.m_publications }
  else if (c.m_exclusivePublications.find? (fun entry =>
      offendingCommandCorrelationId == entry.m_registrationId)).isSome then
    { c with
      m_exclusivePublications :=
        updateFirstIf (fun entry => offendingCommandCorrelationId == entry.m_registrationId)
          (fun entry =>
            { entry with
              m_status := .erroredMediaDriver
              m_errorCode := errorCode
              m_errorMessage := errorMessage })
          c.m_exclusivePublications }
  else c

/-- `ClientConductor::onOperationSuccess`: when a subscription record with
the correlation id exists and is `AwaitingDriver`, mark it registered,
construct and cache the strong `Subscription` handle (storing a weak
reference too) and fire `on_new_subscription`; otherwise do nothing. -/
def ClientConductor.onOperationSuccess (c : ClientConductor) (correlationId : Int) :
    ClientConductor × List ConductorEvent :=
  match c.m_subscriptions.find? (fun entry => correlationId == entry.m_registrationId) with
  | some state =>
    if state.m_status = .awaitingMediaDriver then
      ({ c with
         m_subscriptions :=
           updateFirstIf (fun entry => correlationId == entry.m_registrationId)
             (fun entry =>
               { entry with
                 m_status := .registeredMediaDriver
                 m_subscriptionCacheSet := true
                 m_subscriptionAlive := true })
             c.m_subscriptions },
       [ConductorEvent.onNewSubscription state.m_channel state.m_streamId correlationId])
    else (c, [])
  | none => (c, [])

/-- `ClientConductor::lingerResource` for an image array. -/
def ClientConductor.lingerImageArray (c : ClientConductor) (now : Int)
    (array : Nat) : ClientConductor :=
  { c with m_lingeringImageArrays := c.m_lingeringImageArrays ++ [(now, array)] }

/-- `ClientConductor::lingerResource` for log buffers. -/
def ClientConductor.lingerLogBuffers (c : ClientConductor) (now : Int)
    (logBuffers : Nat) : ClientConductor :=
  { c with m_lingeringLogBuffers := c.m_lingeringLogBuffers ++ [(now, logBuffers)] }

/-- `ClientConductor::onCheckManagedResources`: sweep both linger lists,
erasing every entry with `now > time_of_last_status_change +
resource_linger_timeout_ms` (image-array entries also release the backing
array) and keeping the rest in order. -/
def ClientConductor.onCheckManagedResources (c : ClientConductor) (now : Int) :
    ClientConductor :=
  { c with
    m_lingeringLogBuffers :=
      c.m_lingeringLogBuffers.filter (fun entry =>
        !(decide (entry.1 + c.m_resourceLingerTimeoutMs < now))),
    m_lingeringImageArrays :=
      c.m_lingeringImageArrays.filter (fun entry =>
        !(decide (entry.1 + c.m_resourceLingerTimeoutMs < now))) }

/-! ## Concrete states used by counterexamples and witnesses -/

/-- The characters of `"10"`. -/
def tenChars : List Char := [ '1', '0' ]

/-- The characters of `"zzz"` (no conversion possible). -/
def zzzChars : List Char := [ 'z', 'z', 'z' ]

/-- The characters of `"0x10"` (hexadecimal 16). -/
def hexTenChars : List Char := [ '0', 'x', '1', '0' ]

/-- The characters of the error description `"disk full"`. -/
def diskFullChars : List Char := "disk full".data

/-- The characters of a first free-text error message. -/
def msgXChars : List Char := "no space left on device".data

/-- The characters of a second, different free-text error message. -/
def msgYChars : List Char := "still no space left".data

/-- An IPC channel URI. -/
def chanIpc : String := "aeron:ipc"

/-- A UDP channel URI. -/
def chanUdp : String := "aeron:udp?endpoint=127.0.0.1:40123"

/-- The error message of scenario S5. -/
def chanUnknownMsg : String := "channel unknown"

/-- An error-log buffer holding one record whose
`last_observation_timestamp` is 0. -/
def c5buf : Nat → EntryView := fun o =>
  if o = 0 then
    { length := 24, observation_count := 1, first_observation_timestamp := 0,
      last_observation_timestamp := 0, encoded := [] }
  else zeroEntry

/-- An empty driver proxy whose next correlation id is 100. -/
def proxy100 : DriverProxy := { m_nextCorrelationId := 100, m_commands := [] }

/-- A conductor holding one publication record (registration id 7, stream
10, `AwaitingDriver`, no live handle) and nothing else. -/
def condOnePub : ClientConductor :=
  { m_publications := [newPublicationStateDefn chanUdp 7 10 0],
    m_exclusivePublications := [], m_subscriptions := [],
    m_lingeringLogBuffers := [], m_lingeringImageArrays := [],
    m_driverProxy := proxy100, m_driverTimeoutMs := 10000,
    m_resourceLingerTimeoutMs := 5000, m_driverActive := true }

/-- A conductor with no registrations at all. -/
def condEmpty : ClientConductor :=
  { m_publications := [], m_exclusivePublications := [], m_subscriptions := [],
    m_lingeringLogBuffers := [], m_lingeringImageArrays := [],
    m_driverProxy := proxy100, m_driverTimeoutMs := 10000,
    m_resourceLingerTimeoutMs := 5000, m_driverActive := true }

/-- A conductor with a log buffer and an image array lingered at time 100
(linger timeout 5000 ms). -/
def condLinger : ClientConductor :=
  { m_publications := [], m_exclusivePublications := [], m_subscriptions := [],
    m_lingeringLogBuffers := [(100, 1)], m_lingeringImageArrays := [(100, 2)],
    m_driverProxy := proxy100, m_driverTimeoutMs := 10000,
    m_resourceLingerTimeoutMs := 5000, m_driverActive := true }

/-- A subscription record awaiting the driver (registration id 9,
stream 2002). -/
def subAwaiting : SubscriptionStateDefn :=
  { m_channel := chanIpc, m_registrationId := 9, m_streamId := 2002,
    m_timeOfRegistration := 0, m_status := .awaitingMediaDriver,
    m_errorCode := 0, m_errorMessage := "", m_subscriptionCacheSet := false,
    m_subscriptionAlive := false }

/-- A conductor holding just the awaiting subscription `subAwaiting`. -/
def condOneSub : ClientConductor :=
  { m_publications := [], m_exclusivePublications := [],
    m_subscriptions := [subAwaiting],
    m_lingeringLogBuffers := [], m_lingeringImageArrays := [],
    m_driverProxy := proxy100, m_driverTimeoutMs := 10000,
    m_resourceLingerTimeoutMs := 5000, m_driverActive := true }

/-- A full ring buffer (`head = 0`, `tail = capacity = 1024`) with no
recorded claims, as in scenario S2. -/
def rbFull : ManyToOneRingBuffer :=
  { capacity := 1024, head := 0, tail := 1024, records := [] }

/-! ## Helper lemmas -/

/-- `strncmp` against a literal, with the literal's own length as the bound,
agrees exactly with initial-run matching. -/
theorem cStrncmpEq_length_eq_leadsWith (lit : List Char) :
    ∀ s : List Char, cStrncmpEq s lit lit.length = leadsWith s lit := by
  induction lit with
  | nil => intro s; cases s <;> rfl
  | cons b bs ih =>
    intro s
    cases s with
    | nil => rfl
    | cons a as => simp [cStrncmpEq, leadsWith, ih]

/-- `strncmp(take n d, d, n) == 0` always holds: a truncated copy agrees
with the original on the compared range. -/
theorem cStrncmpEq_take (n : Nat) (d : List Char) :
    cStrncmpEq (d.take n) d n = true := by
  induction n generalizing d with
  | zero => cases d <;> rfl
  | succ m ih =>
    cases d with
    | nil => rfl
    | cons c cs => simp [cStrncmpEq, ih]

/-- Alignment never shrinks a value. -/
theorem le_alignUp8 (v : Nat) : v ≤ alignUp v AERON_ERROR_LOG_RECORD_ALIGNMENT := by
  unfold alignUp AERON_ERROR_LOG_RECORD_ALIGNMENT
  omega

/-- `find?` after updating the first match, when the update preserves the
predicate, finds the updated record. -/
theorem find?_updateFirstIf (p : α → Bool) (f : α → α)
    (hf : ∀ x, p x = true → p (f x) = true) :
    ∀ l : List α, (updateFirstIf p f l).find? p = (l.find? p).map f := by
  intro l
  induction l with
  | nil => rfl
  | cons x xs ih =>
    by_cases hx : p x = true
    · simp [updateFirstIf, hx, List.find?_cons_of_pos, hf x hx]
    · have hx' : p x = false := by simpa using hx
      simp [updateFirstIf, hx', List.find?_cons_of_neg, ih]

/-- The reader loop delivers exactly the iterated records passing the
timestamp filter, and its counter counts the delivered records. -/
theorem readLoop_filter (buf : Nat → EntryView) (size : Nat) (since : Int) :
    ∀ fuel offset,
      (readLoop buf size since fuel offset).2 =
        (iterLoop buf size fuel offset).filter
          (fun p => decide (since ≤ p.2.last_observation_timestamp)) ∧
      (readLoop buf size since fuel offset).1 =
        (readLoop buf size since fuel offset).2.length := by
  intro fuel
  induction fuel with
  | zero => intro offset; simp [readLoop, iterLoop]
  | succ m ih =>
    intro offset
    by_cases hlt : offset < size
    · by_cases hz : (buf offset).length = 0
      · simp [readLoop, iterLoop, hlt, hz]
      · have ihm := ih (offset + alignUp (buf offset).length AERON_ERROR_LOG_RECORD_ALIGNMENT)
        by_cases hts : since ≤ (buf offset).last_observation_timestamp
        · simp [readLoop, iterLoop, hlt, hz, hts, ihm.1, ihm.2]
        · simp [readLoop, iterLoop, hlt, hz, hts, ihm.1, ihm.2]
    · simp [readLoop, iterLoop, hlt]

/-- `iterLoop` is empty for a buffer that is zero away from offset 0 once
the cursor has left offset 0. -/
theorem iterLoop_zero_away (buf : Nat → EntryView) (size : Nat)
    (hz : ∀ o, o ≠ 0 → buf o = zeroEntry) :
    ∀ fuel offset, offset ≠ 0 → iterLoop buf size fuel offset = [] := by
  intro fuel
  induction fuel with
  | zero => intro offset _; rfl
  | succ m _ =>
    intro offset hoff
    by_cases hlt : offset < size
    · simp [iterLoop, hlt, hz offset hoff, zeroEntry]
    · simp [iterLoop, hlt]

/-- A buffer holding a single record at offset 0 iterates exactly that
record. -/
theorem iterRecords_single (buf : Nat → EntryView) (size : Nat)
    (h0 : (buf 0).length ≠ 0) (hsize : 0 < size)
    (hz : ∀ o, o ≠ 0 → buf o = zeroEntry) :
    iterRecords buf size = [(0, buf 0)] := by
  obtain ⟨m, rfl⟩ : ∃ m, size = m + 1 := ⟨size - 1, by omega⟩
  have hstep : (0 : Nat) + alignUp (buf 0).length AERON_ERROR_LOG_RECORD_ALIGNMENT ≠ 0 := by
    have := le_alignUp8 (buf 0).length
    omega
  unfold iterRecords
  simp only [iterLoop, hsize, if_pos, h0, if_neg]
  rw [iterLoop_zero_away buf (m + 1) hz m _ hstep]
  simp [h0]

/-! ## Claim theorems -/

/-- C1: the defaulting branch of `aeron_ipc_publication_term_window_length`
is inverted.  With the default configuration
(`ipc_publication_window_length = 0`) and the default IPC term length
16777216 the function returns 0 — not `term_buffer_length / 2 = 8388608` —
and with a configured window length of 65536 it returns the term length
16777216, silently discarding the configured value. -/
theorem C1_ipc_window_defaulting_inverted :
    aeron_ipc_publication_term_window_length ⟨0⟩ 16777216 = 0 ∧
    (0 : Nat) ≠ 16777216 / 2 ∧
    aeron_ipc_publication_term_window_length ⟨65536⟩ 16777216 = 16777216 ∧
    (16777216 : Nat) ≠ 65536 := by
  refine ⟨rfl, by decide, rfl, by decide⟩

/-- C6 counterexample: `aeron_config_parse_bool` maps `"10"` — which is none
of the exact strings `"1"`, `"on"`, `"true"` — to `true` even with default
`false`, because the source compares with `strncmp` bounded by the length of
each literal. -/
theorem C6_counterexample_initial_run :
    aeron_config_parse_bool (some tenChars) false = true ∧
    tenChars ≠ oneChars ∧ tenChars ≠ onChars ∧ tenChars ≠ trueChars := by
  refine ⟨rfl, by decide, by decide, by decide⟩

/-- C6 (amended): `aeron_config_parse_bool` maps to `true` exactly the
strings that start with `"1"`, `"on"` or `"true"`, then to `false` exactly
the remaining strings that start with `"0"`, `"off"` or `"false"`, and every
other string — and an unset (NULL) value — to the supplied default. -/
theorem C6_parse_bool_initial_run_semantics (str : Option (List Char)) (dflt : Bool) :
    aeron_config_parse_bool str dflt =
      match str with
      | none => dflt
      | some s =>
        if leadsWith s oneChars || leadsWith s onChars || leadsWith s trueChars then true
        else if leadsWith s zeroChars || leadsWith s offChars || leadsWith s falseChars then
          false
        else dflt := by
  cases str with
  | none => rfl
  | some s =>
    have h1 : cStrncmpEq s oneChars 1 = leadsWith s oneChars :=
      cStrncmpEq_length_eq_leadsWith oneChars s
    have h2 : cStrncmpEq s onChars 2 = leadsWith s onChars :=
      cStrncmpEq_length_eq_leadsWith onChars s
    have h3 : cStrncmpEq s trueChars 4 = leadsWith s trueChars :=
      cStrncmpEq_length_eq_leadsWith trueChars s
    have h4 : cStrncmpEq s zeroChars 1 = leadsWith s zeroChars :=
      cStrncmpEq_length_eq_leadsWith zeroChars s
    have h5 : cStrncmpEq s offChars 3 = leadsWith s offChars :=
      cStrncmpEq_length_eq_leadsWith offChars s
    have h6 : cStrncmpEq s falseChars 5 = leadsWith s falseChars :=
      cStrncmpEq_length_eq_leadsWith falseChars s
    simp only [aeron_config_parse_bool, h1, h2, h3, h4, h5, h6]

/-- C7 counterexample: with string `"zzz"` (no conversion possible), default
10 and bounds `[0, 5]`, `aeron_config_parse_uint64` returns 5 — the default
clamped into the bounds — not the supplied default 10. -/
theorem C7_counterexample_default_clamped :
    strtoullChars zzzChars = none ∧
    (0 : Nat) ≤ 5 ∧
    aeron_config_parse_uint64 (some zzzChars) 10 0 5 = 5 ∧
    (5 : Nat) ≠ 10 := by
  refine ⟨rfl, by decide, rfl, by decide⟩

/-- C7 (amended): for bounds `min ≤ max`, `aeron_config_parse_uint64`
returns the default unclamped for an unset (NULL) value; for a present
string it substitutes the default for the `strtoull` value when no
conversion is possible and clamps the result into `[min, max]` (so the
result always lies within the bounds). -/
theorem C7_parse_uint64_clamps (s : List Char) (dflt mn mx : Nat) (h : mn ≤ mx) :
    aeron_config_parse_uint64 none dflt mn mx = dflt ∧
    aeron_config_parse_uint64 (some s) dflt mn mx =
      max mn (min mx (match strtoullChars s with | none => dflt | some v => v)) ∧
    mn ≤ aeron_config_parse_uint64 (some s) dflt mn mx ∧
    aeron_config_parse_uint64 (some s) dflt mn mx ≤ mx := by
  refine ⟨rfl, ?_, ?_, ?_⟩ <;>
    · unfold aeron_config_parse_uint64
      cases hs : strtoullChars s <;>
        simp only [hs, Nat.max_def, Nat.min_def] <;> split_ifs <;> omega

/-- C7 witness: instantiating the amended clamping theorem at the
hexadecimal string `"0x10"` (parsed as 16 by automatic base detection) with
default 10 and bounds `[0, 5]`. -/
theorem C7_parse_uint64_clamps_witness :
    (0 : Nat) ≤ 5 ∧
    aeron_config_parse_uint64 (some hexTenChars) 10 0 5 =
      max 0 (min 5 (match strtoullChars hexTenChars with | none => 10 | some v => v)) := by
  exact ⟨by decide, (C7_parse_uint64_clamps hexTenChars 10 0 5 (by decide)).2.1⟩

/-- C4: two successive `aeron_distinct_error_log_record` calls with the same
`(error_code, description)` key — the free-text messages may differ — on a
fresh log whose buffer can hold the record leave exactly one observation and
one buffer record, with `observation_count = 2`,
`first_observation_timestamp = t1` and `last_observation_timestamp = t2`;
under a monotonic clock (`t1 ≤ t2`) the last observation is no earlier than
the first. -/
theorem C4_record_dedups_on_code_description (cap : Nat) (error_code : Int)
    (description message1 message2 : List Char) (t1 t2 : Int)
    (hmono : t1 ≤ t2)
    (hfit : AERON_ERROR_LOG_HEADER_LENGTH +
      (encodeError error_code description message1).length ≤ cap) :
    ((aeron_distinct_error_log_record (aeron_distinct_error_log_init cap) t1
          error_code description message1).bind
        (fun log1 =>
          aeron_distinct_error_log_record log1 t2 error_code description message2)).map
      (fun log2 =>
        (log2.observations.length,
         (log2.buf 0).observation_count,
         (log2.buf 0).first_observation_timestamp,
         (log2.buf 0).last_observation_timestamp,
         (iterRecords log2.buf cap).length))
      = some (1, 2, t1, t2, 1) ∧
    t1 ≤ t2 := by
  refine ⟨?_, hmono⟩
  have hcap : ¬ (cap < 0 + (AERON_ERROR_LOG_HEADER_LENGTH +
      (encodeError error_code description message1).length)) := by omega
  have htake := cStrncmpEq_take AERON_MAX_PATH description
  have hposcap : 0 < cap := by
    have h24 : AERON_ERROR_LOG_HEADER_LENGTH = 24 := rfl
    omega
  have hgen : ∀ b : Nat → EntryView, (b 0).length ≠ 0 →
      (∀ o, o ≠ 0 → b o = zeroEntry) → (iterRecords b cap).length = 1 := by
    intro b h0 hz
    rw [iterRecords_single b cap h0 hposcap hz]
    rfl
  simp only [aeron_distinct_error_log_record, aeron_distinct_error_log_init,
    aeron_distinct_error_log_new_observation,
    aeron_distinct_error_log_find_observation, List.find?_nil, List.take_nil,
    List.length_nil, if_neg hcap, Option.bind_some, Option.some_bind,
    List.find?_cons, htake, beq_self_eq_true, Bool.and_self, Bool.true_and,
    Bool.and_true, bumpEntry, Option.map_some', ite_true, zeroEntry,
    List.length_cons, Prod.mk.injEq]
  refine congrArg some ?_
  simp only [Prod.mk.injEq]
  refine ⟨by norm_num, by norm_num, trivial, trivial, ?_⟩
  refine hgen _ ?_ ?_
  · have h24 : AERON_ERROR_LOG_HEADER_LENGTH = 24 := rfl
    simp
    omega
  · intro o ho
    simp [if_neg ho, zeroEntry]

/-- C4 witness: the dedup theorem instantiated at scenario S6 — error code
5, description `"disk full"`, two different messages, timestamps 0 and 10,
a 1024-byte buffer. -/
theorem C4_record_dedups_witness :
    (0 : Int) ≤ 10 ∧
    AERON_ERROR_LOG_HEADER_LENGTH + (encodeError 5 diskFullChars msgXChars).length ≤ 1024 ∧
    ((aeron_distinct_error_log_record (aeron_distinct_error_log_init 1024) 0
          5 diskFullChars msgXChars).bind
        (fun log1 =>
          aeron_distinct_error_log_record log1 10 5 diskFullChars msgYChars)).map
      (fun log2 =>
        (log2.observations.length,
         (log2.buf 0).observation_count,
         (log2.buf 0).first_observation_timestamp,
         (log2.buf 0).last_observation_timestamp,
         (iterRecords log2.buf 1024).length))
      = some (1, 2, 0, 10, 1) :=
  ⟨by decide, by decide,
   (C4_record_dedups_on_code_description 1024 5 diskFullChars msgXChars msgYChars 0 10
     (by decide) (by decide)).1⟩

/-- C5 counterexample: a buffer holding one record with
`last_observation_timestamp = 0`, read with `since_timestamp = 1`, iterates
one record but `aeron_error_log_read` returns 0 — the count of records
delivered to the sink, not the total count iterated. -/
theorem C5_counterexample_count_not_total :
    (aeron_error_log_read c5buf 64 1).1 = 0 ∧
    (iterRecords c5buf 64).length = 1 ∧
    (0 : Nat) ≠ 1 := by
  refine ⟨by decide, by decide, by decide⟩

/-- C5 (amended): `aeron_error_log_read` iterates records from offset 0,
halting at the first zero-length entry, delivers to the sink exactly the
iterated records whose `last_observation_timestamp ≥ since_timestamp`, and
returns the count of records delivered (not the total iterated); hence with
`since_timestamp = 0` it delivers every iterated entry (their timestamps
being nonnegative), and with `since_timestamp` greater than every
`last_observation_timestamp` it delivers zero. -/
theorem C5_read_delivers_filtered (buf : Nat → EntryView) (buffer_size : Nat)
    (since_timestamp : Int) :
    (aeron_error_log_read buf buffer_size since_timestamp).2 =
      (iterRecords buf buffer_size).filter
        (fun p => decide (since_timestamp ≤ p.2.last_observation_timestamp)) ∧
    (aeron_error_log_read buf buffer_size since_timestamp).1 =
      (aeron_error_log_read buf buffer_size since_timestamp).2.length ∧
    ((∀ p ∈ iterRecords buf buffer_size, (0 : Int) ≤ p.2.last_observation_timestamp) →
      (aeron_error_log_read buf buffer_size 0).2 = iterRecords buf buffer_size) ∧
    ((∀ p ∈ iterRecords buf buffer_size,
        p.2.last_observation_timestamp < since_timestamp) →
      (aeron_error_log_read buf buffer_size since_timestamp).1 = 0) := by
  have hmain := readLoop_filter buf buffer_size since_timestamp buffer_size 0
  have hzero := readLoop_filter buf buffer_size 0 buffer_size 0
  unfold aeron_error_log_read iterRecords
  refine ⟨hmain.1, hmain.2, ?_, ?_⟩
  · intro hnn
    rw [hzero.1, List.filter_eq_self]
    intro p hp
    simpa using hnn p hp
  · intro hlt
    have h2 : (readLoop buf buffer_size since_timestamp buffer_size 0).2 = [] := by
      rw [hmain.1, List.filter_eq_nil_iff]
      intro p hp
      simpa using not_le.mpr (hlt p hp)
    rw [hmain.2, h2]
    rfl

/-- C5 witness: the amended reader theorem instantiated on the one-record
buffer `c5buf` — with `since_timestamp = 0` every iterated record is
delivered, and with `since_timestamp = 2` (greater than every last
observation timestamp) none is. -/
theorem C5_read_delivers_filtered_witness :
    (aeron_error_log_read c5buf 64 0).2 = iterRecords c5buf 64 ∧
    (aeron_error_log_read c5buf 64 2).1 = 0 :=
  ⟨(C5_read_delivers_filtered c5buf 64 0).2.2.1 (by decide),
   (C5_read_delivers_filtered c5buf 64 2).2.2.2 (by decide)⟩

/-- C2 counterexample: after `onErrorResponse(7, 42, "channel unknown")` on
a conductor holding publication 7, the first `findPublication(7)` throws
`Registration{42, "channel unknown"}` — but the record is not removed, so
the second `findPublication(7)` throws the same `Registration` again
instead of returning nothing. -/
theorem C2_counterexample_record_not_removed :
    ((condOnePub.onErrorResponse 7 42 chanUnknownMsg).findPublication 1 7).1 =
      FindPublicationResult.registrationError 42 chanUnknownMsg ∧
    ((((condOnePub.onErrorResponse 7 42 chanUnknownMsg).findPublication 1 7).2).findPublication
        1 7).1 = FindPublicationResult.registrationError 42 chanUnknownMsg ∧
    ((((condOnePub.onErrorResponse 7 42 chanUnknownMsg).findPublication 1 7).2).findPublication
        1 7).1 ≠ FindPublicationResult.nothing := by
  refine ⟨by decide, by decide, by decide⟩

/-- C2 (amended): for a publication registration id in the conductor's
table whose id is not also a subscription id and whose user handle is not
alive, after `on_error_response(id, code, msg)` the next
`find_publication(id)` throws `Registration{code, msg}` and leaves the
conductor unchanged; the record is not removed, so a second
`find_publication(id)` throws the same `Registration` again. -/
theorem C2_error_then_find_throws_twice (c : ClientConductor) (now regId : Int)
    (code : Int) (msg : String) (e : PublicationStateDefn)
    (hsub : c.m_subscriptions.find?
      (fun entry => regId == entry.m_registrationId) = none)
    (hpub : c.m_publications.find?
      (fun entry => regId == entry.m_registrationId) = some e)
    (halive : e.m_publicationAlive = false) :
    ((c.onErrorResponse regId code msg).findPublication now regId).1 =
      FindPublicationResult.registrationError code msg ∧
    ((c.onErrorResponse regId code msg).findPublication now regId).2 =
      c.onErrorResponse regId code msg ∧
    ((((c.onErrorResponse regId code msg).findPublication now regId).2).findPublication
        now regId).1 = FindPublicationResult.registrationError code msg := by
  have hc1 : c.onErrorResponse regId code msg =
      { c with
        m_publications :=
          updateFirstIf (fun entry => regId == entry.m_registrationId)
            (fun entry =>
              { entry with
                m_status := RegistrationStatus.erroredMediaDriver
                m_errorCode := code
                m_errorMessage := msg })
            c.m_publications } := by
    simp [ClientConductor.onErrorResponse, hsub, hpub]
  have hfind1 :
      (updateFirstIf (fun entry => regId == entry.m_registrationId)
          (fun entry =>
            { entry with
              m_status := RegistrationStatus.erroredMediaDriver
              m_errorCode := code
              m_errorMessage := msg })
          c.m_publications).find?
        (fun entry => regId == entry.m_registrationId) =
      some
        { e with
          m_status := RegistrationStatus.erroredMediaDriver
          m_errorCode := code
          m_errorMessage := msg } := by
    rw [find?_updateFirstIf _ _ (fun x hx => by simpa using hx), hpub]
    rfl
  have hres : ((c.onErrorResponse regId code msg).findPublication now regId) =
      (FindPublicationResult.registrationError code msg, c.onErrorResponse regId code msg) := by
    rw [hc1]
    simp [ClientConductor.findPublication, hfind1, halive]
  refine ⟨by rw [hres], by rw [hres], ?_⟩
  rw [hres]
  rw [hc1]
  simp [ClientConductor.findPublication, hfind1, halive]

/-- C2 witness: the amended theorem instantiated on the one-publication
conductor `condOnePub` with the error response of scenario S5. -/
theorem C2_error_then_find_throws_twice_witness :
    condOnePub.m_subscriptions.find? (fun entry => (7 : Int) == entry.m_registrationId) =
      none ∧
    condOnePub.m_publications.find? (fun entry => (7 : Int) == entry.m_registrationId) =
      some (newPublicationStateDefn chanUdp 7 10 0) ∧
    (newPublicationStateDefn chanUdp 7 10 0).m_publicationAlive = false ∧
    ((condOnePub.onErrorResponse 7 42 chanUnknownMsg).findPublication 3 7).1 =
      FindPublicationResult.registrationError 42 chanUnknownMsg :=
  ⟨rfl, by decide, rfl,
   (C2_error_then_find_throws_twice condOnePub 3 7 42 chanUnknownMsg
     (newPublicationStateDefn chanUdp 7 10 0) rfl (by decide) rfl).1⟩

/-- C3: `onCheckManagedResources(now)` removes an entry placed at time `t`
on either linger list exactly when `now > t + resource_linger_timeout_ms`
and retains it otherwise; hence a lingered entry is still present after a
sweep at `now = t + linger_timeout - 1` and is gone after a sweep at
`now = t + linger_timeout + 1`. -/
theorem C3_check_managed_resources_sweep (c : ClientConductor) (now t : Int) (r : Nat) :
    ((t, r) ∈ (c.onCheckManagedResources now).m_lingeringLogBuffers ↔
      (t, r) ∈ c.m_lingeringLogBuffers ∧ now ≤ t + c.m_resourceLingerTimeoutMs) ∧
    ((t, r) ∈ (c.onCheckManagedResources now).m_lingeringImageArrays ↔
      (t, r) ∈ c.m_lingeringImageArrays ∧ now ≤ t + c.m_resourceLingerTimeoutMs) ∧
    ((t, r) ∈ c.m_lingeringLogBuffers →
      (t, r) ∈ (c.onCheckManagedResources
        (t + c.m_resourceLingerTimeoutMs - 1)).m_lingeringLogBuffers) ∧
    ((t, r) ∈ c.m_lingeringImageArrays →
      (t, r) ∈ (c.onCheckManagedResources
        (t + c.m_resourceLingerTimeoutMs - 1)).m_lingeringImageArrays) ∧
    (t, r) ∉ (c.onCheckManagedResources
        (t + c.m_resourceLingerTimeoutMs + 1)).m_lingeringLogBuffers ∧
    (t, r) ∉ (c.onCheckManagedResources
        (t + c.m_resourceLingerTimeoutMs + 1)).m_lingeringImageArrays := by
  refine ⟨?_, ?_, ?_, ?_, ?_, ?_⟩
  · simp [ClientConductor.onCheckManagedResources, List.mem_filter, not_lt]
  · simp [ClientConductor.onCheckManagedResources, List.mem_filter, not_lt]
  · intro h
    simp only [ClientConductor.onCheckManagedResources, List.mem_filter]
    exact ⟨h, by simp⟩
  · intro h
    simp only [ClientConductor.onCheckManagedResources, List.mem_filter]
    exact ⟨h, by simp⟩
  · simp only [ClientConductor.onCheckManagedResources, List.mem_filter]
    rintro ⟨-, habs⟩
    simp at habs
  · simp only [ClientConductor.onCheckManagedResources, List.mem_filter]
    rintro ⟨-, habs⟩
    simp at habs

/-- C3 witness: the sweep theorem instantiated on `condLinger`, whose log
buffer and image array were lingered at time 100 with a 5000 ms timeout. -/
theorem C3_check_managed_resources_sweep_witness :
    (100, 1) ∈ condLinger.m_lingeringLogBuffers ∧
    (100, 1) ∈ (condLinger.onCheckManagedResources
      (100 + condLinger.m_resourceLingerTimeoutMs - 1)).m_lingeringLogBuffers ∧
    (100, 1) ∉ (condLinger.onCheckManagedResources
      (100 + condLinger.m_resourceLingerTimeoutMs + 1)).m_lingeringLogBuffers ∧
    (100, 2) ∈ (condLinger.onCheckManagedResources
      (100 + condLinger.m_resourceLingerTimeoutMs - 1)).m_lingeringImageArrays :=
  ⟨by decide,
   (C3_check_managed_resources_sweep condLinger 0 100 1).2.2.1 (by decide),
   (C3_check_managed_resources_sweep condLinger 0 100 1).2.2.2.2.1,
   (C3_check_managed_resources_sweep condLinger 0 100 2).2.2.2.1 (by decide)⟩

/-- C8: with an active driver, `addPublication(channel, streamId)` returns
the registration id of an existing record with the same `(channel, stream)`
and leaves the conductor — its table and its driver proxy — completely
unchanged; only when no such record exists does it allocate the proxy's
fresh correlation id, send a single `AddPublication` command, and append a
record in state `AwaitingDriver`. -/
theorem C8_add_publication_dedup (c : ClientConductor) (now : Int)
    (channel : String) (streamId : Int) (hactive : c.m_driverActive = true) :
    (∀ e, c.m_publications.find?
        (fun entry => streamId == entry.m_streamId && channel == entry.m_channel) = some e →
      c.addPublication now channel streamId = some (e.m_registrationId, c)) ∧
    (c.m_publications.find?
        (fun entry => streamId == entry.m_streamId && channel == entry.m_channel) = none →
      c.addPublication now channel streamId =
        some (c.m_driverProxy.m_nextCorrelationId,
          { c with
            m_publications := c.m_publications ++
              [newPublicationStateDefn channel c.m_driverProxy.m_nextCorrelationId
                streamId now],
            m_driverProxy :=
              { m_nextCorrelationId := c.m_driverProxy.m_nextCorrelationId + 1,
                m_commands := c.m_driverProxy.m_commands ++
                  [DriverCommand.addPublication channel streamId] } })) := by
  constructor
  · intro e he
    simp [ClientConductor.addPublication, hactive, he]
  · intro hnone
    simp [ClientConductor.addPublication, DriverProxy.addPublication, hactive, hnone]

/-- C8 witness: the dedup theorem instantiated on `condOnePub` (which
already holds `(chanUdp, 10)` under registration id 7, so the duplicate add
returns 7 and changes nothing) and on the empty conductor `condEmpty`
(which allocates fresh id 100 and sends the command). -/
theorem C8_add_publication_dedup_witness :
    condOnePub.m_driverActive = true ∧
    condOnePub.addPublication 5 chanUdp 10 = some (7, condOnePub) ∧
    condEmpty.addPublication 5 chanUdp 10 =
      some (100,
        { condEmpty with
          m_publications := [newPublicationStateDefn chanUdp 100 10 5],
          m_driverProxy :=
            { m_nextCorrelationId := 101,
              m_commands := [DriverCommand.addPublication chanUdp 10] } }) :=
  ⟨rfl,
   (C8_add_publication_dedup condOnePub 5 chanUdp 10 rfl).1
     (newPublicationStateDefn chanUdp 7 10 0) (by decide),
   (C8_add_publication_dedup condEmpty 5 chanUdp 10 rfl).2 (by decide)⟩

/-- C9 (spec-modelled): when the size checks pass
(`length ≤ capacity / 8`, `msg_type_id > 0`) but
`tail - head + align(length + header_length, alignment) > capacity`,
`write` returns `false` and leaves the ring buffer — in particular its
`tail` counter — unchanged, raising no exception. -/
theorem C9_write_insufficient_space (rb : ManyToOneRingBuffer) (msgTypeId : Int)
    (length : Nat) (hlen : length ≤ rb.capacity / 8) (htype : 0 < msgTypeId)
    (hfull : rb.capacity <
      rb.tail - rb.head + alignUp (length + rbRecordHeaderLength) rbRecordAlignment) :
    rb.write msgTypeId length = Except.ok (false, rb) := by
  have h1 : ¬ (rb.capacity / 8 < length ∨ msgTypeId ≤ 0) := by
    push_neg
    exact ⟨hlen, htype⟩
  simp only [ManyToOneRingBuffer.write, if_neg h1, if_pos hfull]

/-- C9 witness: the insufficient-space theorem instantiated at scenario S2 —
a full 1024-byte ring (`head = 0`, `tail = 1024`), message type 101,
length 8. -/
theorem C9_write_insufficient_space_witness :
    (8 : Nat) ≤ rbFull.capacity / 8 ∧
    (0 : Int) < 101 ∧
    rbFull.capacity <
      rbFull.tail - rbFull.head + alignUp (8 + rbRecordHeaderLength) rbRecordAlignment ∧
    rbFull.write 101 8 = Except.ok (false, rbFull) :=
  ⟨by decide, by decide, by decide,
   C9_write_insufficient_space rbFull 101 8 (by decide) (by decide) (by decide)⟩

/-- C10: `onOperationSuccess(correlationId)` transitions a subscription
record to `Registered`, caches the strong `Subscription` handle and fires
`on_new_subscription` only when a record with that id exists with status
`AwaitingDriver`; with an unknown id or any other status it leaves the
conductor unchanged and fires no callback, and a repeated call after any
call is always such a no-op — the operation is idempotent. -/
theorem C10_operation_success_guarded_idempotent (c : ClientConductor)
    (correlationId : Int) :
    ClientConductor.onOperationSuccess (c.onOperationSuccess correlationId).1
        correlationId = ((c.onOperationSuccess correlationId).1, []) ∧
    (c.m_subscriptions.find? (fun entry => correlationId == entry.m_registrationId) =
        none → c.onOperationSuccess correlationId = (c, [])) ∧
    (∀ st, c.m_subscriptions.find?
        (fun entry => correlationId == entry.m_registrationId) = some st →
      st.m_status ≠ RegistrationStatus.awaitingMediaDriver →
      c.onOperationSuccess correlationId = (c, [])) ∧
    (∀ st, c.m_subscriptions.find?
        (fun entry => correlationId == entry.m_registrationId) = some st →
      st.m_status = RegistrationStatus.awaitingMediaDriver →
      (c.onOperationSuccess correlationId).2 =
        [ConductorEvent.onNewSubscription st.m_channel st.m_streamId correlationId] ∧
      (c.onOperationSuccess correlationId).1.m_subscriptions.find?
          (fun entry => correlationId == entry.m_registrationId) =
        some { st with
               m_status := RegistrationStatus.registeredMediaDriver
               m_subscriptionCacheSet := true
               m_subscriptionAlive := true }) := by
  have hupd : ∀ st, c.m_subscriptions.find?
      (fun entry => correlationId == entry.m_registrationId) = some st →
      (updateFirstIf (fun entry => correlationId == entry.m_registrationId)
          (fun entry =>
            { entry with
              m_status := RegistrationStatus.registeredMediaDriver
              m_subscriptionCacheSet := true
              m_subscriptionAlive := true })
          c.m_subscriptions).find?
        (fun entry => correlationId == entry.m_registrationId) =
      some { st with
             m_status := RegistrationStatus.registeredMediaDriver
             m_subscriptionCacheSet := true
             m_subscriptionAlive := true } := by
    intro st hst
    rw [find?_updateFirstIf _ _ (fun x hx => by simpa using hx), hst]
    rfl
  refine ⟨?_, ?_, ?_, ?_⟩
  · cases hfind : c.m_subscriptions.find?
        (fun entry => correlationId == entry.m_registrationId) with
    | none => simp [ClientConductor.onOperationSuccess, hfind]
    | some st =>
      by_cases hst : st.m_status = RegistrationStatus.awaitingMediaDriver
      · simp only [ClientConductor.onOperationSuccess, hfind, hst, if_true, reduceIte]
        simp [hupd st hfind]
      · simp [ClientConductor.onOperationSuccess, hfind, hst]
  · intro hnone
    simp [ClientConductor.onOperationSuccess, hnone]
  · intro st hst hstatus
    simp [ClientConductor.onOperationSuccess, hst, hstatus]
  · intro st hst hstatus
    refine ⟨?_, ?_⟩
    · simp [ClientConductor.onOperationSuccess, hst, hstatus]
    · simp only [ClientConductor.onOperationSuccess, hst, hstatus, reduceIte]
      exact hupd st hst

/-- C10 witness: the guarded-idempotence theorem instantiated on
`condOneSub`, whose awaiting subscription 9 is registered (firing exactly
one `on_new_subscription` callback) by the first `onOperationSuccess(9)`,
while a second `onOperationSuccess(9)` changes nothing. -/
theorem C10_operation_success_witness :
    condOneSub.m_subscriptions.find?
      (fun entry => (9 : Int) == entry.m_registrationId) = some subAwaiting ∧
    subAwaiting.m_status = RegistrationStatus.awaitingMediaDriver ∧
    (condOneSub.onOperationSuccess 9).2 =
      [ConductorEvent.onNewSubscription subAwaiting.m_channel subAwaiting.m_streamId 9] ∧
    ClientConductor.onOperationSuccess (condOneSub.onOperationSuccess 9).1 9 =
      ((condOneSub.onOperationSuccess 9).1, []) :=
  ⟨by decide, rfl,
   ((C10_operation_success_guarded_idempotent condOneSub 9).2.2.2 subAwaiting
     (by decide) rfl).1,
   (C10_operation_success_guarded_idempotent condOneSub 9).1⟩

end Aeron
